import Mathlib

/-!
Shallow embedding of lightspark's native argument-marshalling layer
(`src/scripting/argconv.h`): the per-type coercion protocol
(`ArgumentConversionAtom<T>::toConcrete` / `toAbstract`) and the positional
argument unpacker (`ArgUnpackAtom`).

External collaborators (the tagged dynamic value `asAtom` with its
`asAtomHandler` primitives, the class registry, and reference counting) are
not part of the repository sources; they are modelled as an explicit closed
variant type, an abstract environment of conversion primitives, and an
explicit reference-count heap, following the spec's data model.
-/

namespace Lightspark

/-- Runtime class identifier (the class registry is an external collaborator;
classes are modelled by identifiers with an abstract subclass relation). -/
abbrev ClassId := Nat

/-- The distinguished root class `ASObject`. The C++ template specialization
`ArgumentConversionAtom<NullableRef<ASObject>>` is selected exactly when the
declared class of a nullable-reference slot is this class. -/
def ASObjectCls : ClassId := 0

/-- A reference-counted runtime object: an identity (for the reference-count
heap), its runtime class, and its class name (used in diagnostics via
`getClassName()`). -/
structure Obj where
  id : Nat
  cls : ClassId
  clsName : String
deriving DecidableEq, Repr

/-- Uninterpreted carrier standing for the C++ `number_t` (double). No claim
about this layer involves floating-point arithmetic: `number_t` values only
pass through the dispatch to the external `toNumber` primitive. -/
structure number_t where
  bits : Nat
deriving DecidableEq, Repr

/-- Modelled from the spec: the fixed-size color triple `RGB` of the runtime
(defined outside the repository sources), built from a packed 0xRRGGBB
unsigned integer exactly as the `RGB(uint32_t)` constructor does. -/
structure RGB where
  r : Nat
  g : Nat
  b : Nat
deriving DecidableEq, Repr

/-- Modelled from the spec: `RGB(uint32_t c)` extracts the three color bytes
from the packed unsigned integer. -/
def RGB.fromUInt (c : Nat) : RGB :=
  ⟨(c >>> 16) % 256, (c >>> 8) % 256, c % 256⟩

/-- The tagged dynamic value (`asAtom`): a closed variant over invalid,
undefined, null, boolean, signed/unsigned integer, number, string and object
reference, following the spec's data model of the external value cell. -/
inductive asAtom where
  | invalidAtom
  | undefinedAtom
  | nullAtom
  | boolAtom (b : Bool)
  | intAtom (i : Int)
  | uintAtom (u : Nat)
  | numberAtom (n : number_t)
  | stringAtom (s : String)
  | objectAtom (o : Obj)
deriving DecidableEq, Repr

/-- `asAtomHandler::isNull`. -/
def isNull : asAtom → Bool
  | .nullAtom => true
  | _ => false

/-- `asAtomHandler::isUndefined`. -/
def isUndefined : asAtom → Bool
  | .undefinedAtom => true
  | _ => false

/-- `asAtomHandler::isInvalid`. -/
def isInvalid : asAtom → Bool
  | .invalidAtom => true
  | _ => false

/-- `asAtomHandler::isValid` (the negation of `isInvalid`). -/
def isValid (a : asAtom) : Bool := !isInvalid a

/-- `asAtomHandler::isObject`: whether the atom holds an object pointer. -/
def isObject : asAtom → Bool
  | .objectAtom _ => true
  | _ => false

/-- The reference-count heap: object identity to counted-reference total.
The only shared mutable state this layer touches. -/
abbrev Heap := Nat → Nat

/-- `o->incRef()`: increment the counted-reference total of one object. -/
def incRef (h : Heap) (o : Obj) : Heap :=
  fun i => if i = o.id then h i + 1 else h i

/-- `ASATOM_INCREF(a)`: increment the reference count of the object held by
an atom; a no-op for non-object atoms. -/
def incRefAtom (h : Heap) : asAtom → Heap
  | .objectAtom o => incRef h o
  | _ => h

/-- The environment of external primitives consumed by this layer: the
dynamic value's generic conversion primitives, the class registry's subclass
relation and qualified-name lookup, the boxing performed by
`asAtomHandler::toObject`, and `asAtomHandler::checkArgumentConversion`.
All are external collaborators; theorems quantify over every environment. -/
structure Env where
  /-- runtime subclass test: first class is the second class or a subtype -/
  subclass : ClassId → ClassId → Bool
  /-- `Class<T>::getClass(...)->getQualifiedClassName()` -/
  qualName : ClassId → String
  /-- the singleton object boxing the null atom -/
  nullObj : Obj
  /-- the singleton object boxing the undefined atom -/
  undefinedObj : Obj
  /-- boxing of primitive atoms into objects -/
  box : asAtom → Obj
  /-- `asAtomHandler::toNumber` -/
  toNumber : asAtom → number_t
  /-- `asAtomHandler::Boolean_concrete` -/
  booleanConcrete : asAtom → Bool
  /-- `asAtomHandler::toUInt` -/
  toUInt : asAtom → Nat
  /-- `asAtomHandler::toInt` -/
  toInt : asAtom → Int
  /-- `asAtomHandler::toInt64` -/
  toInt64 : asAtom → Int
  /-- `asAtomHandler::toString` -/
  toStringConv : asAtom → String
  /-- `asAtomHandler::checkArgumentConversion(v, obj)` -/
  checkArgumentConversion : asAtom → asAtom → Bool

/-- Modelled from the spec: `asAtomHandler::toObject` (external) — an object
atom yields its object unchanged; null and undefined yield the runtime's
distinguished singletons; primitives are boxed. -/
def toObject (env : Env) : asAtom → Obj
  | .objectAtom o => o
  | .nullAtom => env.nullObj
  | .undefinedAtom => env.undefinedObj
  | a => env.box a

/-- Modelled from the spec: `asAtomHandler::is<T>` (external) — type
compatibility for reference types means "is T or a runtime subtype of T",
and null/undefined/primitive atoms are not instances of a reference class
("Null derives directly from ASObject, i.e. Null is not a subclass"). -/
def isOfType (env : Env) (T : ClassId) : asAtom → Bool
  | .objectAtom o => env.subclass o.cls T
  | _ => false

/-- The two fatal error kinds raised by this layer, with the formatted
arguments of the corresponding `throwError<ArgumentError>` call. -/
inductive ASError where
  | wrongArgumentCount (a b c : String)
  | checkTypeFailed (actual expected : String)
deriving DecidableEq, Repr

/-- `ArgumentConversionAtom<asAtom>::toConcrete` (the universal reference
type): null and undefined pass through as sentinels; otherwise, if the
target's prior value `v` is a valid non-null non-undefined value failing
`checkArgumentConversion(v, obj)`, a type-check error is raised (with the
unfinished `"?"` expected-type placeholder); otherwise the argument is
reference-incremented and returned. -/
def toConcreteAtom (env : Env) (heap : Heap) (obj v : asAtom) :
    Except ASError (asAtom × Heap) :=
  if isNull obj then .ok (.nullAtom, heap)
  else if isUndefined obj then .ok (.undefinedAtom, heap)
  else if isValid v && !isNull v && !isUndefined v
         && !env.checkArgumentConversion v obj then
    .error (.checkTypeFailed (toObject env obj).clsName "?")
  else
    .ok (obj, incRefAtom heap obj)

/-- `ArgumentConversionAtom<asAtom>::toAbstract`: an invalid atom maps to the
Null tag; otherwise the value is reference-incremented and passed through. -/
def toAbstractAtom (heap : Heap) (val : asAtom) : asAtom × Heap :=
  if isInvalid val then (.nullAtom, heap)
  else (val, incRefAtom heap val)

/-- `ArgumentConversionAtom<Ref<T>>::toConcrete` (strong reference): on type
mismatch, raise a type-check error carrying the value's class name and T's
qualified class name; on success, increment the object's reference count and
return an owning handle. -/
def toConcreteRef (env : Env) (T : ClassId) (heap : Heap) (obj : asAtom) :
    Except ASError (Obj × Heap) :=
  if !isOfType env T obj then
    .error (.checkTypeFailed (toObject env obj).clsName (env.qualName T))
  else
    let o := toObject env obj
    .ok (o, incRef heap o)

/-- `ArgumentConversionAtom<Ref<T>>::toAbstract`: increment the reference
count, then wrap the object into a dynamic value. -/
def toAbstractRef (heap : Heap) (val : Obj) : asAtom × Heap :=
  (.objectAtom val, incRef heap val)

/-- `ArgumentConversionAtom<NullableRef<T>>::toConcrete`, the generic
template (selected for every T other than ASObject): null and undefined
yield the empty handle; otherwise type-check, then increment and wrap. -/
def toConcreteNullableRefGeneric (env : Env) (T : ClassId) (heap : Heap)
    (obj : asAtom) : Except ASError (Option Obj × Heap) :=
  if isNull obj then .ok (none, heap)
  else if isUndefined obj then .ok (none, heap)
  else if !isOfType env T obj then
    .error (.checkTypeFailed (toObject env obj).clsName (env.qualName T))
  else
    let o := toObject env obj
    .ok (some o, incRef heap o)

/-- `ArgumentConversionAtom<NullableRef<ASObject>>::toConcrete`, the explicit
specialization: unconditionally convert the atom to an object, increment its
reference count and return an owning handle — no null/undefined case, no
type check, no error path. -/
def toConcreteNullableRefASObject (env : Env) (heap : Heap) (obj : asAtom) :
    Except ASError (Option Obj × Heap) :=
  let o := toObject env obj
  .ok (some o, incRef heap o)

/-- C++ template dispatch for `ArgumentConversionAtom<NullableRef<T>>`: the
explicit ASObject specialization wins when T is ASObject, otherwise the
generic template is instantiated. -/
def toConcreteNullableRef (env : Env) (T : ClassId) (heap : Heap)
    (obj : asAtom) : Except ASError (Option Obj × Heap) :=
  if T = ASObjectCls then toConcreteNullableRefASObject env heap obj
  else toConcreteNullableRefGeneric env T heap obj

/-- `ArgumentConversionAtom<NullableRef<T>>::toAbstract` (the generic
template and the ASObject specialization have identical bodies): a null
handle maps to the Null tag; otherwise increment and wrap. -/
def toAbstractNullableRef (heap : Heap) (val : Option Obj) : asAtom × Heap :=
  match val with
  | none => (.nullAtom, heap)
  | some o => (.objectAtom o, incRef heap o)

/-- Modelled from the spec: the dynamic value's ToColor conversion — the
color triple built from the value's ToUint32 result. -/
def toColor (env : Env) (obj : asAtom) : RGB :=
  RGB.fromUInt (env.toUInt obj)

/-- The concrete parameter types registered with the coercion protocol: the
primitive scalars, the strong reference `Ref<T>`, the nullable reference
`NullableRef<T>`, and the universal reference `asAtom`. -/
inductive NativeTy where
  | numberT
  | boolT
  | uintT
  | intT
  | int64T
  | stringT
  | rgbT
  | refT (T : ClassId)
  | nrefT (T : ClassId)
  | atomT
deriving DecidableEq, Repr

/-- A native variable's value, one shape per concrete parameter type. -/
inductive NativeVal where
  | vNumber (n : number_t)
  | vBool (b : Bool)
  | vUInt (u : Nat)
  | vInt (i : Int)
  | vInt64 (i : Int)
  | vString (s : String)
  | vRGB (c : RGB)
  | vRef (o : Obj)
  | vNRef (o : Option Obj)
  | vAtom (a : asAtom)
deriving DecidableEq, Repr

/-- Projection of a well-typed universal-reference variable to its atom (in
C++ the static type of the variable guarantees the `vAtom` shape). -/
def NativeVal.asAtomVal : NativeVal → asAtom
  | .vAtom a => a
  | _ => .invalidAtom

/-- `ArgumentConversionAtom<T>::toConcrete`, dispatched over the registered
concrete parameter types. Scalars delegate to the environment's conversion
primitives without touching the heap and without failing; reference types
follow their specializations above. `v` is the target variable's prior
value (inspected only by the universal-reference specialization). -/
def toConcrete (env : Env) (ty : NativeTy) (heap : Heap) (obj : asAtom)
    (v : NativeVal) : Except ASError (NativeVal × Heap) :=
  match ty with
  | .numberT => .ok (.vNumber (env.toNumber obj), heap)
  | .boolT => .ok (.vBool (env.booleanConcrete obj), heap)
  | .uintT => .ok (.vUInt (env.toUInt obj), heap)
  | .intT => .ok (.vInt (env.toInt obj), heap)
  | .int64T => .ok (.vInt64 (env.toInt64 obj), heap)
  | .stringT => .ok (.vString (env.toStringConv obj), heap)
  | .rgbT => .ok (.vRGB (RGB.fromUInt (env.toUInt obj)), heap)
  | .refT T =>
      (toConcreteRef env T heap obj).map fun p => (.vRef p.1, p.2)
  | .nrefT T =>
      (toConcreteNullableRef env T heap obj).map fun p => (.vNRef p.1, p.2)
  | .atomT =>
      (toConcreteAtom env heap obj v.asAtomVal).map fun p => (.vAtom p.1, p.2)

/-- The state of an `ArgUnpackAtom` cursor: the remaining window of the
argument array and the `moreAllowed` flag. The source keeps a pointer plus
a separate length `argslen`; the constructor ties them together
(`argslen` equals the length of the remaining window throughout), so the
window is modelled as a list and the remaining count as its length. -/
structure ArgUnpackAtom where
  args : List asAtom
  moreAllowed : Bool
deriving DecidableEq, Repr

/-- `ArgUnpackAtom::operator()(T&)` — a required slot. With no remaining
argument (`argslen == 0`), raise the wrong-argument-count error before any
coercion; otherwise coerce `args[0]` into the variable, advance the cursor
(`args++`) and decrement the remaining count (`argslen--`). -/
def applyRequired (env : Env) (ty : NativeTy) (heap : Heap)
    (st : ArgUnpackAtom) (v : NativeVal) :
    Except ASError (NativeVal × ArgUnpackAtom × Heap) :=
  match st.args with
  | [] => .error (.wrongArgumentCount "object" "?" "?")
  | a :: rest =>
      (toConcrete env ty heap a v).map fun p =>
        (p.1, { st with args := rest }, p.2)

/-- `ArgUnpackAtom::operator()(T&, const TD&)` — a defaulted slot. With a
remaining argument it coerces exactly as a required slot; otherwise it
assigns the default value, leaving cursor, count and heap untouched. -/
def applyDefaulted (env : Env) (ty : NativeTy) (heap : Heap)
    (st : ArgUnpackAtom) (v dv : NativeVal) :
    Except ASError (NativeVal × ArgUnpackAtom × Heap) :=
  match st.args with
  | [] => .ok (dv, st, heap)
  | a :: rest =>
      (toConcrete env ty heap a v).map fun p =>
        (p.1, { st with args := rest }, p.2)

/-- One slot declaration of an `ARG_UNPACK_ATOM` chain: required, or
defaulted with a default value. -/
inductive SlotDecl where
  | required (ty : NativeTy)
  | defaulted (ty : NativeTy) (dv : NativeVal)
deriving DecidableEq, Repr

/-- Apply one slot declaration to the cursor. -/
def applySlot (env : Env) (heap : Heap) (st : ArgUnpackAtom) :
    SlotDecl → NativeVal → Except ASError (NativeVal × ArgUnpackAtom × Heap)
  | .required ty, v => applyRequired env ty heap st v
  | .defaulted ty dv, v => applyDefaulted env ty heap st v dv

/-- Run a chain of slot declarations left to right, each paired with its
target variable's prior value. Returns the final variable values (a thrown
error leaves the failing slot's variable and every later variable at its
prior value), the cursor state and heap at the moment the chain stopped,
and the raised error, if any — mirroring the in-place mutation and
exception unwinding of the chained `operator()` calls. -/
def runSlots (env : Env) (heap : Heap) (st : ArgUnpackAtom) :
    List (SlotDecl × NativeVal) →
    List NativeVal × ArgUnpackAtom × Heap × Option ASError
  | [] => ([], st, heap, none)
  | (d, v) :: rest =>
      match applySlot env heap st d v with
      | .error e => (v :: rest.map Prod.snd, st, heap, some e)
      | .ok (v', st', heap') =>
          let r := runSlots env heap' st' rest
          (v' :: r.1, r.2.1, r.2.2.1, r.2.2.2)

/-- `ArgUnpackAtom::~ArgUnpackAtom` (debug builds): the number of
"Not all arguments were unpacked" diagnostics emitted on destruction —
one when arguments remain and extras are not allowed, zero otherwise. -/
def destructorLogCount (st : ArgUnpackAtom) : Nat :=
  if st.args.length > 0 && !st.moreAllowed then 1 else 0

/-- `ARG_UNPACK_ATOM`: construct the cursor over one call's arguments in
exact-arity mode (`moreAllowed = false`). -/
def ARG_UNPACK_ATOM (args : List asAtom) : ArgUnpackAtom :=
  ⟨args, false⟩

/-- `ARG_UNPACK_ATOM_MORE_ALLOWED`: construct the cursor in extra-allowed
mode (`moreAllowed = true`). -/
def ARG_UNPACK_ATOM_MORE_ALLOWED (args : List asAtom) : ArgUnpackAtom :=
  ⟨args, true⟩

/-! Concrete instances used to evaluate the development on closed inputs. -/

/-- A sample runtime object of class 3 named "Foo". -/
def cObjFoo : Obj := ⟨10, 3, "Foo"⟩

/-- A sample runtime object of class 4 named "Bar". -/
def cObjBar : Obj := ⟨11, 4, "Bar"⟩

/-- A sample environment: subclassing is class equality, every conversion
primitive is a simple constant function, argument-conversion checks pass. -/
def cEnv : Env where
  subclass := fun a b => decide (a = b)
  qualName := fun c => "pkg::C" ++ toString c
  nullObj := ⟨0, 1, "null"⟩
  undefinedObj := ⟨1, 2, "void"⟩
  box := fun _ => ⟨2, 5, "boxed"⟩
  toNumber := fun _ => ⟨0⟩
  booleanConcrete := fun _ => true
  toUInt := fun _ => 0
  toInt := fun _ => 42
  toInt64 := fun _ => 0
  toStringConv := fun _ => "s"
  checkArgumentConversion := fun _ _ => true

/-- The sample environment with an argument-conversion predicate that
rejects every pair. -/
def cEnvNoConv : Env :=
  { cEnv with checkArgumentConversion := fun _ _ => false }

/-- A sample heap giving every object a reference count of one. -/
def h0 : Heap := fun _ => 1

/-! Theorems. -/

/-- C1: applying a required slot with zero remaining arguments raises the
wrong-argument-count error and applies no coercion; with at least one
remaining argument it runs the forward coercion of the slot's type on the
next argument into the target variable, advances the cursor by one and
decreases the remaining count by one. -/
theorem required_slot_spec :
    ∀ (env : Env) (ty : NativeTy) (heap : Heap) (m : Bool) (v : NativeVal),
      applyRequired env ty heap ⟨[], m⟩ v
        = .error (.wrongArgumentCount "object" "?" "?")
      ∧ ∀ (a : asAtom) (rest : List asAtom),
          applyRequired env ty heap ⟨a :: rest, m⟩ v
            = (toConcrete env ty heap a v).map
                (fun p => (p.1, ⟨rest, m⟩, p.2))
          ∧ (⟨rest, m⟩ : ArgUnpackAtom).args.length
              = (a :: rest).length - 1 := by
  intro env ty heap m v
  exact ⟨rfl, fun a rest => ⟨rfl, rfl⟩⟩

/-- C2: a defaulted slot with at least one remaining argument behaves
exactly as the corresponding required slot; with zero remaining arguments
it sets the target variable to the default value and leaves the cursor,
the remaining count and the heap untouched, attempting no coercion. -/
theorem defaulted_slot_spec :
    ∀ (env : Env) (ty : NativeTy) (heap : Heap) (m : Bool) (v dv : NativeVal),
      (∀ (a : asAtom) (rest : List asAtom),
        applyDefaulted env ty heap ⟨a :: rest, m⟩ v dv
          = applyRequired env ty heap ⟨a :: rest, m⟩ v)
      ∧ applyDefaulted env ty heap ⟨[], m⟩ v dv = .ok (dv, ⟨[], m⟩, heap) := by
  intro env ty heap m v dv
  exact ⟨fun a rest => rfl, rfl⟩

/-- C7: every primitive scalar slot type delegates its forward coercion to
the dynamic value's own generic conversion primitive and performs no
arithmetic coercion itself — the result is exactly the primitive's value,
the heap is untouched and no error can be raised. -/
theorem scalar_slots_delegate :
    ∀ (env : Env) (heap : Heap) (obj : asAtom) (v : NativeVal),
      toConcrete env .numberT heap obj v
        = .ok (.vNumber (env.toNumber obj), heap)
      ∧ toConcrete env .boolT heap obj v
        = .ok (.vBool (env.booleanConcrete obj), heap)
      ∧ toConcrete env .uintT heap obj v
        = .ok (.vUInt (env.toUInt obj), heap)
      ∧ toConcrete env .intT heap obj v
        = .ok (.vInt (env.toInt obj), heap)
      ∧ toConcrete env .int64T heap obj v
        = .ok (.vInt64 (env.toInt64 obj), heap)
      ∧ toConcrete env .stringT heap obj v
        = .ok (.vString (env.toStringConv obj), heap)
      ∧ toConcrete env .rgbT heap obj v
        = .ok (.vRGB (toColor env obj), heap) :=
  fun _ _ _ _ => ⟨rfl, rfl, rfl, rfl, rfl, rfl, rfl⟩

/-- C8: reverse coercion of a reference-type value increments the
underlying object's counted-reference total before wrapping it into the
returned dynamic value; a null or empty native handle maps to the
Null-tagged dynamic value with no reference-count change. -/
theorem reverse_coercion_refcounts :
    ∀ (heap : Heap) (o : Obj),
      toAbstractRef heap o = (.objectAtom o, incRef heap o)
      ∧ incRef heap o o.id = heap o.id + 1
      ∧ toAbstractNullableRef heap (some o) = (.objectAtom o, incRef heap o)
      ∧ toAbstractNullableRef heap none = (.nullAtom, heap)
      ∧ toAbstractAtom heap (.objectAtom o) = (.objectAtom o, incRef heap o)
      ∧ toAbstractAtom heap .invalidAtom = (.nullAtom, heap) := by
  intro heap o
  refine ⟨rfl, ?_, rfl, rfl, rfl, rfl⟩
  simp [incRef]

/-- C9: destruction of an unpacker in exact-arity mode with a nonzero
remaining count emits exactly one "extra arguments" diagnostic, however
many extra arguments remain; no diagnostic is emitted with a zero
remaining count, and none is ever emitted in extra-allowed mode. -/
theorem destructor_diagnostic_spec :
    ∀ (a : asAtom) (rest args : List asAtom) (m : Bool),
      destructorLogCount ⟨a :: rest, false⟩ = 1
      ∧ destructorLogCount ⟨args, true⟩ = 0
      ∧ destructorLogCount ⟨[], m⟩ = 0 := by
  intro a rest args m
  refine ⟨?_, ?_, ?_⟩ <;> simp [destructorLogCount]

/-- C10: forward coercion into the nullable universal-object slot type
(`NullableRef<ASObject>`) never raises an error for any input, including
null and undefined: it unconditionally converts the value to an object,
increments that object's reference count, and returns an owning handle —
so null and undefined do not yield the empty handle and do change the
reference count. -/
theorem nullable_asobject_total_spec :
    ∀ (env : Env) (heap : Heap) (obj : asAtom),
      toConcreteNullableRef env ASObjectCls heap obj
        = .ok (some (toObject env obj), incRef heap (toObject env obj))
      ∧ incRef heap (toObject env obj) (toObject env obj).id
          = heap (toObject env obj).id + 1 := by
  intro env heap obj
  refine ⟨?_, ?_⟩
  · simp [toConcreteNullableRef, toConcreteNullableRefASObject]
  · simp [incRef]

/-- C3: evaluation at the failing input. The header's own usage comment
states "If a 'null' value is provided for an Object type, it's reference is
set to a NullRef", and the generic `NullableRef<T>` template does exactly
that; but the explicit `NullableRef<ASObject>` specialization instead boxes
null into the Null object, increments its reference count and returns an
owning (non-empty) handle — contradicting the claim's "every
nullable-reference slot type yields the empty handle with no
reference-count change". The generic-template and strong-reference parts of
the claim do hold, as the last three conjuncts show. -/
theorem nullable_ref_null_coercion_divergence :
    toConcreteNullableRef cEnv ASObjectCls h0 .nullAtom
      = .ok (some cEnv.nullObj, incRef h0 cEnv.nullObj)
    ∧ incRef h0 cEnv.nullObj cEnv.nullObj.id = h0 cEnv.nullObj.id + 1
    ∧ toConcreteNullableRefGeneric cEnv 7 h0 .nullAtom = .ok (none, h0)
    ∧ toConcreteNullableRefGeneric cEnv 7 h0 .undefinedAtom = .ok (none, h0)
    ∧ toConcreteRef cEnv 7 h0 .nullAtom
        = .error (.checkTypeFailed "null" (cEnv.qualName 7)) := by
  refine ⟨rfl, ?_, rfl, rfl, rfl⟩
  simp [incRef]

/-- C4: forward coercion of a dynamic value whose runtime class is not the
declared strong-reference class T or a runtime subtype of T fails with a
type-check error carrying the value's actual class name and T's qualified
class name, and the target slot variable keeps its prior value. -/
theorem strong_ref_typecheck_failure :
    ∀ (env : Env) (T : ClassId) (heap : Heap) (o : Obj) (m : Bool)
      (rest : List asAtom) (v : NativeVal),
      env.subclass o.cls T = false →
      toConcreteRef env T heap (.objectAtom o)
        = .error (.checkTypeFailed o.clsName (env.qualName T))
      ∧ runSlots env heap ⟨.objectAtom o :: rest, m⟩ [(.required (.refT T), v)]
        = ([v], ⟨.objectAtom o :: rest, m⟩, heap,
            some (.checkTypeFailed o.clsName (env.qualName T))) := by
  intro env T heap o m rest v h
  have h1 : toConcreteRef env T heap (.objectAtom o)
      = .error (.checkTypeFailed o.clsName (env.qualName T)) := by
    simp [toConcreteRef, isOfType, h, toObject]
  refine ⟨h1, ?_⟩
  simp [runSlots, applySlot, applyRequired, toConcrete, h1, Except.map]

/-- C4 witness: the sample object of class 3 against declared class 4. -/
theorem strong_ref_typecheck_failure_witness :
    toConcreteRef cEnv 4 h0 (.objectAtom cObjFoo)
      = .error (.checkTypeFailed "Foo" (cEnv.qualName 4))
    ∧ runSlots cEnv h0 ⟨[.objectAtom cObjFoo], false⟩
        [(.required (.refT 4), .vInt 0)]
      = ([.vInt 0], ⟨[.objectAtom cObjFoo], false⟩, h0,
          some (.checkTypeFailed "Foo" (cEnv.qualName 4))) :=
  strong_ref_typecheck_failure cEnv 4 h0 cObjFoo false [] (.vInt 0) rfl

/-- C6 counterexample: the universal-reference specialization does contain
a type check. When the target variable's prior value is a valid non-null,
non-undefined value failing `checkArgumentConversion` against the argument,
coercing a real object raises a type-check error instead of returning it as
an owning handle — refuting "no type check for any input". -/
theorem universal_ref_no_typecheck_refuted :
    toConcreteAtom cEnvNoConv h0 (.objectAtom cObjFoo) (.objectAtom cObjBar)
      = .error (.checkTypeFailed "Foo" "?") := rfl

/-- C6 (amended): the universal reference type passes null and undefined
through as sentinels with no reference-count change regardless of the
target's prior value; when the prior value is invalid, null or undefined —
the usual freshly-declared variable — or passes the argument-conversion
compatibility check, a real object is returned as an owning handle with its
reference count incremented and no type check fails; when the prior value
is a valid non-null, non-undefined value failing the compatibility check
against the argument, a type-check error is raised (with the placeholder
"?" expected-type name). -/
theorem universal_ref_spec_amended :
    ∀ (env : Env) (heap : Heap) (v : asAtom),
      toConcreteAtom env heap .nullAtom v = .ok (.nullAtom, heap)
      ∧ toConcreteAtom env heap .undefinedAtom v = .ok (.undefinedAtom, heap)
      ∧ ∀ o : Obj,
          toConcreteAtom env heap (.objectAtom o) .invalidAtom
            = .ok (.objectAtom o, incRef heap o)
          ∧ toConcreteAtom env heap (.objectAtom o) .nullAtom
            = .ok (.objectAtom o, incRef heap o)
          ∧ toConcreteAtom env heap (.objectAtom o) .undefinedAtom
            = .ok (.objectAtom o, incRef heap o)
          ∧ (env.checkArgumentConversion v (.objectAtom o) = true →
              toConcreteAtom env heap (.objectAtom o) v
                = .ok (.objectAtom o, incRef heap o))
          ∧ (isValid v = true → isNull v = false → isUndefined v = false →
              env.checkArgumentConversion v (.objectAtom o) = false →
              toConcreteAtom env heap (.objectAtom o) v
                = .error (.checkTypeFailed o.clsName "?")) := by
  intro env heap v
  refine ⟨rfl, rfl, fun o => ⟨rfl, rfl, rfl, ?_, ?_⟩⟩
  · intro hc
    simp [toConcreteAtom, isNull, isUndefined, hc, incRefAtom]
  · intro hv hn hu hc
    unfold toConcreteAtom
    simp only [hv, hn, hu, hc]
    simp [toObject, isNull, isUndefined]

/-- C6 witness: with a passing compatibility check the object is taken as
an owning handle; with a failing check against a valid prior object, the
type-check error is raised. -/
theorem universal_ref_spec_amended_witness :
    toConcreteAtom cEnv h0 (.objectAtom cObjFoo) (.objectAtom cObjBar)
      = .ok (.objectAtom cObjFoo, incRef h0 cObjFoo)
    ∧ toConcreteAtom cEnvNoConv h0 (.objectAtom cObjFoo) (.objectAtom cObjBar)
      = .error (.checkTypeFailed "Foo" "?") :=
  ⟨((universal_ref_spec_amended cEnv h0
      (.objectAtom cObjBar)).2.2 cObjFoo).2.2.2.1 rfl,
   ((universal_ref_spec_amended cEnvNoConv h0
      (.objectAtom cObjBar)).2.2 cObjFoo).2.2.2.2 rfl rfl rfl rfl⟩

/-- C5: slots are applied strictly in declaration order; a coercion or
arity failure while applying slot k leaves slots 0..k-1 holding their
already-coerced values and slot k and all later slots at their prior
values, with the cursor, heap and error as of the failing slot. In
particular, with two required slots and exactly one call argument, the
unpack fails while applying the second slot with the wrong-argument-count
error, and the first slot holds the successfully coerced first argument. -/
theorem slots_declaration_order_partial_mutation :
    (∀ (env : Env) (slots1 : List (SlotDecl × NativeVal)) (heap : Heap)
       (st : ArgUnpackAtom) (d : SlotDecl) (v : NativeVal)
       (rest : List (SlotDecl × NativeVal)) (vs : List NativeVal)
       (st1 : ArgUnpackAtom) (heap1 : Heap) (e : ASError),
       runSlots env heap st slots1 = (vs, st1, heap1, none) →
       applySlot env heap1 st1 d v = .error e →
       runSlots env heap st (slots1 ++ (d, v) :: rest)
         = (vs ++ v :: rest.map Prod.snd, st1, heap1, some e))
    ∧ ∀ (env : Env) (heap : Heap) (a : asAtom) (v1 v2 : NativeVal),
        runSlots env heap ⟨[a], false⟩
          [(.required .intT, v1), (.required .intT, v2)]
          = ([.vInt (env.toInt a), v2], ⟨[], false⟩, heap,
              some (.wrongArgumentCount "object" "?" "?")) := by
  constructor
  · intro env slots1
    induction slots1 with
    | nil =>
        intro heap st d v rest vs st1 heap1 e h1 h2
        simp only [runSlots, Prod.mk.injEq] at h1
        obtain ⟨h1a, h1b, h1c, -⟩ := h1
        subst h1a; subst h1b; subst h1c
        simp [runSlots, h2]
    | cons hd tl ih =>
        intro heap st d v rest vs st1 heap1 e h1 h2
        obtain ⟨d0, v0⟩ := hd
        rcases heq : applySlot env heap st d0 v0 with e0 | ⟨v', st', heap'⟩
        · simp [runSlots, heq] at h1
        · rcases hr : runSlots env heap' st' tl with ⟨vs', st1', heap1', err'⟩
          simp only [runSlots, heq, hr, Prod.mk.injEq] at h1
          obtain ⟨h1a, h1b, h1c, h1d⟩ := h1
          subst h1a; subst h1b; subst h1c; subst h1d
          have hIH := ih heap' st' d v rest vs' st1' heap1' e hr h2
          simp only [List.cons_append, runSlots, heq, List.append_eq, hIH]
  · intro env heap a v1 v2
    rfl

/-- C5 witness: required integer slots A and B over the single argument
list, failing on B with A coerced. -/
theorem slots_declaration_order_partial_mutation_witness :
    runSlots cEnv h0 ⟨[.intAtom 5], false⟩
      ([(.required .intT, .vInt 0)] ++ (.required .intT, .vInt 1) :: [])
      = ([.vInt 42] ++ .vInt 1
            :: ([] : List (SlotDecl × NativeVal)).map Prod.snd,
          ⟨[], false⟩, h0, some (.wrongArgumentCount "object" "?" "?")) :=
  slots_declaration_order_partial_mutation.1 cEnv
    [(.required .intT, .vInt 0)] h0 ⟨[.intAtom 5], false⟩
    (.required .intT) (.vInt 1) [] [.vInt 42] ⟨[], false⟩ h0
    (.wrongArgumentCount "object" "?" "?") rfl rfl

end Lightspark
